import Mathlib

/-!
Verification of the dual-camera truck-detect / brick-segment pipeline
(`src/app.py`) against its natural-language specification.

The Python source is shallowly embedded: pure helpers become Lean
functions over ℤ/ℚ/ℕ; the per-camera worker loop body becomes an
explicit state-passing function parameterised by oracles for the two
external inference engines (`det_model.predict`, `seg_model.predict`)
and for `cv2.resize`; Python exceptions become `Except`; the Python
`Queue` becomes a list; the shallow-copy aliasing of the stats dict is
modelled with an explicit reference heap.
-/

namespace TrackLoad

/-- Source `clamp(val, lo, hi) = max(lo, min(hi, val))` from `src/app.py` line 39. -/
def clamp (val lo hi : ℤ) : ℤ := max lo (min hi val)

/-- Python `int()` applied to a rational value: truncation toward zero.
Used for `dx = int(bw * self.crop_margin)` (`src/app.py` lines 242-243). -/
def pyInt (q : ℚ) : ℤ := if 0 ≤ q then ⌊q⌋ else ⌈q⌉

/-- Python `round()` on a rational (ties at .5 modelled as round-half-up,
which agrees with Python on the counterexample value 1.5). Used only by
the spec-side definition `spec_expand_and_clamp`. -/
def pyRound (q : ℚ) : ℤ := round q

/-- A bounding box `(x1, y1, x2, y2)` in pixel coordinates. -/
structure Box where
  x1 : ℤ
  y1 : ℤ
  x2 : ℤ
  y2 : ℤ
deriving DecidableEq, Repr

/-- The crop-window computation of `_process_camera` (`src/app.py`
lines 241-247): expand the bbox by `int(extent * crop_margin)` per axis,
then clamp every coordinate into `[0, W-1] × [0, H-1]`. -/
def cropWindow (b : Box) (margin : ℚ) (W H : ℤ) : Box :=
  let bw := b.x2 - b.x1
  let bh := b.y2 - b.y1
  let dx := pyInt ((bw : ℚ) * margin)
  let dy := pyInt ((bh : ℚ) * margin)
  { x1 := clamp (b.x1 - dx) 0 (W - 1)
    y1 := clamp (b.y1 - dy) 0 (H - 1)
    x2 := clamp (b.x2 + dx) 0 (W - 1)
    y2 := clamp (b.y2 + dy) 0 (H - 1) }

/-- Modelled from the spec: `expand_and_clamp(box, margin_fraction, W, H)`
"expands box by `round(extent × margin_fraction)` per axis, then clamps"
(spec §4.1).  This is the SPEC's formula, to be compared with the
source's `cropWindow`, which truncates instead of rounding. -/
def spec_expand_and_clamp (b : Box) (margin : ℚ) (W H : ℤ) : Box :=
  let bw := b.x2 - b.x1
  let bh := b.y2 - b.y1
  let dx := pyRound ((bw : ℚ) * margin)
  let dy := pyRound ((bh : ℚ) * margin)
  { x1 := clamp (b.x1 - dx) 0 (W - 1)
    y1 := clamp (b.y1 - dy) 0 (H - 1)
    x2 := clamp (b.x2 + dx) 0 (W - 1)
    y2 := clamp (b.y2 + dy) 0 (H - 1) }

/-- The amended crop-window formula: expand each side by the floor of
`extent * margin` (for non-negative extents and margins, Python `int()`
truncation coincides with the floor), then clamp. -/
def expand_and_clamp_trunc (b : Box) (margin : ℚ) (W H : ℤ) : Box :=
  let dx := ⌊((b.x2 - b.x1 : ℤ) : ℚ) * margin⌋
  let dy := ⌊((b.y2 - b.y1 : ℤ) : ℚ) * margin⌋
  { x1 := clamp (b.x1 - dx) 0 (W - 1)
    y1 := clamp (b.y1 - dy) 0 (H - 1)
    x2 := clamp (b.x2 + dx) 0 (W - 1)
    y2 := clamp (b.y2 + dy) 0 (H - 1) }

/-- One raw detection as produced by the detector: class id and the
(un-clamped) integer corners of `b.xyxy[0]`
(`src/app.py` lines 347-351). -/
structure RawDet where
  cls : ℤ
  x1 : ℤ
  y1 : ℤ
  x2 : ℤ
  y2 : ℤ
deriving DecidableEq, Repr

/-- Source `_extract_truck_boxes(det_results, W, H)` (`src/app.py` lines
341-357): iterate over each result's boxes, keep only detections whose
class id equals `truck_class_id`, clamp every coordinate into the
frame, and keep the box only when the clamped extent is positive. -/
def extractTruckBoxes (truckClassId : ℤ) (detResults : List (List RawDet))
    (W H : ℤ) : List Box :=
  detResults.flatMap fun boxes =>
    boxes.filterMap fun b =>
      if b.cls ≠ truckClassId then none
      else
        let x1 := clamp b.x1 0 (W - 1)
        let y1 := clamp b.y1 0 (H - 1)
        let x2 := clamp b.x2 0 (W - 1)
        let y2 := clamp b.y2 0 (H - 1)
        if x2 > x1 ∧ y2 > y1 then some ⟨x1, y1, x2, y2⟩ else none

/-- A mask is a 2-D grid of membership scores, modelled as a function
from (row, col) to the score.  Reads outside the mask's own extent never
occur in the operations below. -/
abbrev Mask := ℤ → ℤ → ℚ

/-- An already-binarised full-frame (or crop) grid of 0/1 pixels. -/
abbrev BinGrid := ℤ → ℤ → ℕ

/-- The zero-initialised canvas: `np.zeros((H, W))`
(`src/app.py` line 261). -/
def zerosCanvas : BinGrid := fun _ _ => 0

/-- NumPy slice assignment `canvas[cy1:cy2, cx1:cx2] = src`: inside the
slice the pixel comes from `src` at the slice-relative offset, outside
the slice the canvas is unchanged. -/
def sliceAssign (canvas : BinGrid) (cy1 cy2 cx1 cx2 : ℤ) (src : BinGrid) :
    BinGrid :=
  fun y x =>
    if cy1 ≤ y ∧ y < cy2 ∧ cx1 ≤ x ∧ x < cx2 then src (y - cy1) (x - cx1)
    else canvas y x

/-- Thresholding `(m > 0.5).astype(np.uint8)` applied pixelwise
(`src/app.py` line 266). -/
def binarize (m : Mask) : BinGrid := fun y x => if 1 / 2 < m y x then 1 else 0

/-- The mask-to-full-frame remapping step of `_process_camera`
(`src/app.py` lines 259-266): start from a zero `H × W` canvas, resize
the mask to the crop-window extent when its native size `(mh, mw)`
differs (`cv2.resize` is external and is passed in as the oracle
`resize`, which maps a mask to a grid of the requested
`(height, width)` extent), binarise at `0.5`, and write the result into
the canvas at the window's offset by slice assignment. -/
def remapMask (resize : Mask → ℤ → ℤ → Mask) (m : Mask) (mh mw : ℤ)
    (cx1 cy1 cx2 cy2 : ℤ) : BinGrid :=
  let m' := if mh = cy2 - cy1 ∧ mw = cx2 - cx1 then m
            else resize m (cy2 - cy1) (cx2 - cx1)
  sliceAssign zerosCanvas cy1 cy2 cx1 cx2 (binarize m')

/-- Pixel count `np.sum(full_mask > 0)` over the `H × W` canvas
(`src/app.py` line 270): the number of nonzero pixels, computed here as
the sum of the 0/1 pixel values. -/
def maskArea (fm : BinGrid) (W H : ℕ) : ℕ :=
  (List.range H).foldl
    (fun acc y =>
      (List.range W).foldl (fun a x => a + fm (y : ℤ) (x : ℤ)) acc) 0

/-! ### Frame queue (`queue.Queue(maxsize=2)` with drain-then-put) -/

/-- Repeated `q.get_nowait()` until `q.empty()`: the drain loops at
`src/app.py` lines 323-325 (producer) and 332-334 (error path) leave the
queue empty. -/
def drainQueue {α : Type} (_ : List α) : List α := []

/-- Source `q.put_nowait(x)` on a `Queue(maxsize=2)`: appends when the queue is
below capacity; otherwise raises `Full`, which the callers swallow with
a bare `except`, leaving the queue unchanged. -/
def putNowait {α : Type} (q : List α) (maxsize : ℕ) (x : α) : List α :=
  if q.length < maxsize then q ++ [x] else q

/-- The producer's publish step (`src/app.py` lines 321-327): drain any
already-queued frames, then `put_nowait` the new frame. -/
def producerInsert {α : Type} (q : List α) (x : α) : List α :=
  putNowait (drainQueue q) 2 x

/-- The consumer read loop of `get_frame` (`src/app.py` lines 385-388):
`frame = None; while not empty: frame = get_nowait()`.  Returns the last
item drained (or `none`) together with the emptied queue. -/
def readLoop {α : Type} : List α → Option α → Option α × List α
  | [], acc => (acc, [])
  | x :: rest, _ => readLoop rest (some x)

/-- The queue interaction of `get_frame` (`src/app.py` lines 382-395): drain
the queue keeping the most recent item; an empty queue yields `none`
(the JPEG encoding of the frame is a boundary concern outside this
model). -/
def getFrameRead {α : Type} (q : List α) : Option α × List α :=
  readLoop q none

/-! ### Stats -/

/-- The per-camera stats record (`src/app.py` lines 86-92): `fps`,
`trucks`, `objects`, `total_area` (kept for backward compatibility) and
`brick_area`. -/
structure CamStats where
  fps : ℚ
  trucks : ℕ
  objects : ℕ
  total_area : ℚ
  brick_area : ℚ
deriving DecidableEq, Repr

/-- The initial per-camera stats set up in `__init__`
(`src/app.py` lines 85-99): everything zero. -/
def initCamStats : CamStats :=
  { fps := 0, trucks := 0, objects := 0, total_area := 0, brick_area := 0 }

/-- The per-iteration stats update of `_process_camera`
(`src/app.py` lines 305-311): store the truck count, the brick-mask
count, and the total brick area into both `brick_area` and the
backward-compatibility field `total_area`. -/
def updateIterStats (s : CamStats) (trucks objects : ℕ) (area : ℚ) :
    CamStats :=
  { s with trucks := trucks, objects := objects,
           brick_area := area, total_area := area }

/-- The whole stats dictionary: two camera records plus the derived
volume estimate (`src/app.py` lines 85-101). -/
structure GlobalStats where
  camera1 : CamStats
  camera2 : CamStats
  volume_estimate : ℚ
deriving DecidableEq, Repr

/-- The initial stats dictionary (`src/app.py` lines 85-101). -/
def initGlobalStats : GlobalStats :=
  { camera1 := initCamStats, camera2 := initCamStats, volume_estimate := 0 }

/-- Source `estimate_volume` (`src/app.py` lines 403-414): average the two
stored brick areas, multiply by `0.01`, store the result into
`volume_estimate` and return it. -/
def estimate_volume (s : GlobalStats) : GlobalStats × ℚ :=
  let avg_area := (s.camera1.brick_area + s.camera2.brick_area) / 2
  let est := avg_area * (1 / 100)
  ({ s with volume_estimate := est }, est)

/-! ### The per-camera worker loop body -/

/-- A video frame.  Pixel contents are irrelevant to the claims below;
what matters is identity and whether annotation overlays have been
drawn, so a frame is an id plus an `annotated` flag (`frame.copy()`
copies the value, compositing sets the flag). -/
structure Frame where
  fid : ℕ
  annotated : Bool
deriving DecidableEq, Repr

/-- The compositing of step 3 of `_process_camera` (`src/app.py` lines
276-294): blending masks and drawing boxes onto a copy of the raw
frame yields an annotated frame with the same identity. -/
def annotate (f : Frame) : Frame := { f with annotated := true }

/-- The raw result of one `seg_model.predict` call on a crop, as
consumed by `_extract_seg_masks` (`src/app.py` lines 359-380): a list
of masks, each with its native extent `(mh, mw)`.  (`_extract_seg_masks`
already resizes each mask to the crop size, so the shape check at line
264 finds them equal; both resizes go through the same `resize`
oracle.) -/
abbrev SegOutput := List (Mask × ℤ × ℤ)

/-- Configuration held by the worker: target class id, crop margin. -/
structure WorkerCfg where
  truck_class_id : ℤ
  crop_margin : ℚ
deriving Repr

/-- The `try` body of one `_process_camera` iteration (`src/app.py`
lines 227-327), parameterised by oracles: `det` is the outcome of
`det_model.predict` (already decoded to raw detections, or an
exception), `seg` maps a crop window to the outcome of
`seg_model.predict` on that crop, `resize` stands for `cv2.resize`.
Returns the kept truck boxes, the full-frame masks, and the total
brick area; any exception aborts the whole body.  Steps mirrored:
extract truck boxes, per box expand-and-clamp, skip empty crops, run
segmentation, resize each mask to the crop extent
(`_extract_seg_masks`), remap each to a full-frame mask and accumulate
its pixel area. -/
def processFrameBody (cfg : WorkerCfg) (W H : ℕ)
    (det : Except Unit (List (List RawDet)))
    (seg : Box → Except Unit SegOutput)
    (resize : Mask → ℤ → ℤ → Mask) :
    Except Unit (List Box × List BinGrid × ℕ) := do
  let detResults ← det
  let truckBoxes := extractTruckBoxes cfg.truck_class_id detResults W H
  let (masksFull, totalArea) ← truckBoxes.foldlM
    (fun (acc : List BinGrid × ℕ) b => do
      let w := cropWindow b cfg.crop_margin W H
      if w.y2 - w.y1 ≤ 0 ∨ w.x2 - w.x1 ≤ 0 then
        pure acc
      else do
        let segOut ← seg w
        let masks := segOut.map fun mi =>
          if mi.2.1 = w.y2 - w.y1 ∧ mi.2.2 = w.x2 - w.x1 then mi.1
          else resize mi.1 (w.y2 - w.y1) (w.x2 - w.x1)
        pure (masks.foldl
          (fun (acc2 : List BinGrid × ℕ) m =>
            let fullMask :=
              remapMask resize m (w.y2 - w.y1) (w.x2 - w.x1)
                w.x1 w.y1 w.x2 w.y2
            (acc2.1 ++ [fullMask], acc2.2 + maskArea fullMask W H))
          acc))
    ([], 0)
  pure (truckBoxes, masksFull, totalArea)

/-- One non-paused `_process_camera` iteration after a successful
`cap.read()` (`src/app.py` lines 224-336): run the `try` body; on
success update the stats and publish the annotated frame (drain, then
put); on any exception leave the stats untouched and publish the raw
frame (drain, then put), and in either case fall through to the next
loop iteration.  Returns the new stats and the new queue contents. -/
def cameraIteration (cfg : WorkerCfg) (W H : ℕ) (st : CamStats)
    (frame : Frame) (queue : List Frame)
    (det : Except Unit (List (List RawDet)))
    (seg : Box → Except Unit SegOutput)
    (resize : Mask → ℤ → ℤ → Mask) : CamStats × List Frame :=
  match processFrameBody cfg W H det seg resize with
  | .ok (truckBoxes, masksFull, totalArea) =>
      (updateIterStats st truckBoxes.length masksFull.length (totalArea : ℚ),
       producerInsert queue (annotate frame))
  | .error _ => (st, producerInsert queue frame)

/-- The outcome of one full pass through the `while` loop of
`_process_camera`. -/
structure IterResult where
  readInvoked : Bool
  stats : CamStats
  frozen : Option Frame
  queue : List Frame
deriving Repr

/-- One full pass through the `while self.processing` loop of
`_process_camera` (`src/app.py` lines 204-336).  If the pause flag is
set, `cap.read()` is not invoked; the retained last-good frame, when
present, is republished (drain, then put) and the iteration ends
(sleep elided).  Otherwise `cap.read()` is invoked — its outcome is the
oracle `readResult`; on a failed read the iteration just ends, on a
successful read the frame becomes the new last-good frame and the
processing body runs. -/
def workerLoopIteration (cfg : WorkerCfg) (W H : ℕ) (paused : Bool)
    (st : CamStats) (frozen : Option Frame) (queue : List Frame)
    (readResult : Option Frame)
    (det : Except Unit (List (List RawDet)))
    (seg : Box → Except Unit SegOutput)
    (resize : Mask → ℤ → ℤ → Mask) : IterResult :=
  if paused then
    match frozen with
    | some f => ⟨false, st, frozen, producerInsert queue f⟩
    | none => ⟨false, st, frozen, queue⟩
  else
    match readResult with
    | none => ⟨true, st, frozen, queue⟩
    | some f =>
        let r := cameraIteration cfg W H st f queue det seg resize
        ⟨true, r.1, some f, r.2⟩

/-! ### Construction and start (`__init__`, `start_processing`) -/

/-- The processor state set up by `DualCameraYOLO.__init__`
(`src/app.py` lines 47-101): the four configuration values stored as
given, the initial stats, and the processing flags. -/
structure ProcessorState where
  det_conf : ℚ
  seg_conf : ℚ
  truck_class_id : ℤ
  crop_margin : ℚ
  stats : GlobalStats
  processing : Bool
  processing_paused : Bool
deriving DecidableEq, Repr

/-- Source `DualCameraYOLO.__init__` (`src/app.py` lines 47-103): store the
configuration values — no value validation is performed anywhere in the
constructor — then call `_load_models`, whose outcome (model files are
external) is the oracle `loadModels`; a load failure is re-raised. -/
def DualCameraYOLO_mk (det_conf seg_conf : ℚ) (truck_class_id : ℤ)
    (crop_margin : ℚ) (loadModels : Except String Unit) :
    Except String ProcessorState := do
  let st : ProcessorState :=
    { det_conf := det_conf, seg_conf := seg_conf,
      truck_class_id := truck_class_id, crop_margin := crop_margin,
      stats := initGlobalStats, processing := false,
      processing_paused := false }
  loadModels
  pure st

/-- The `/api/start` handler body (`src/app.py` lines 499-533) composed
with `start_streams` (lines 142-179): read the configuration values
(none is range-checked), construct the processor, open the two capture
sources — the oracle `openStreams` stands for the `cv2.VideoCapture`
opens, which are external — and set the processing flags.  Any raised
exception is reported to the caller as an error response. -/
def start_processing_core (det_conf seg_conf : ℚ) (truck_class_id : ℤ)
    (crop_margin : ℚ) (loadModels openStreams : Except String Unit) :
    Except String ProcessorState := do
  let st ← DualCameraYOLO_mk det_conf seg_conf truck_class_id crop_margin
    loadModels
  openStreams
  pure { st with processing := true, processing_paused := false }

/-! ### Reference-heap model of the stats dictionary

`self.stats` is a Python dict whose `camera1` / `camera2` entries are
themselves dicts, i.e. references into the heap.  `get_stats` returns
`self.stats.copy()` — a SHALLOW copy: the top-level float
`volume_estimate` is copied by value, but the two nested camera dicts
are shared by reference with the live stats.  The heap model makes this
aliasing explicit. -/

/-- Identity of a heap-allocated per-camera stats dict. -/
inductive CamKey
  | camera1
  | camera2
deriving DecidableEq, Repr

/-- The heap of per-camera stats dicts. -/
abbrev CamHeap := CamKey → CamStats

/-- The top-level stats dict as a value: references to the two camera
dicts plus the immutable float `volume_estimate`. -/
structure StatsDict where
  camera1Ref : CamKey
  camera2Ref : CamKey
  volume_estimate : ℚ
deriving DecidableEq, Repr

/-- The `self.stats` dict built in `__init__` (`src/app.py` lines
85-101): fresh camera dicts (one heap cell per camera), zero volume. -/
def statsDictInit : StatsDict :=
  { camera1Ref := CamKey.camera1, camera2Ref := CamKey.camera2,
    volume_estimate := 0 }

/-- The heap contents after `__init__`: both camera dicts zeroed. -/
def camHeapInit : CamHeap := fun _ => initCamStats

/-- Python `dict.copy()`: a new top-level dict with the same entries —
the nested camera-dict references are shared, the float is copied. -/
def dictShallowCopy (d : StatsDict) : StatsDict := d

/-- The snapshot returned by `get_stats` (`src/app.py` lines 397-401):
the shallow copy of `self.stats` plus the `processing_paused` flag. -/
structure StatsSnapshot where
  dict : StatsDict
  processing_paused : Bool
deriving DecidableEq, Repr

/-- Source `get_stats` (`src/app.py` lines 397-401): under the stats lock,
shallow-copy `self.stats` and add the pause flag. -/
def get_stats (d : StatsDict) (paused : Bool) : StatsSnapshot :=
  { dict := dictShallowCopy d, processing_paused := paused }

/-- A worker's in-place stats update (`src/app.py` lines 306-311) seen
through the heap: the camera dict referenced from the live stats dict is
mutated in place. -/
def heapWorkerUpdate (h : CamHeap) (liveDict : StatsDict)
    (cam : CamKey) (trucks objects : ℕ) (area : ℚ) : CamHeap :=
  let target := if cam = CamKey.camera1 then liveDict.camera1Ref
                else liveDict.camera2Ref
  fun k => if k = target then updateIterStats (h k) trucks objects area
           else h k

/-- Reading the camera-1 contents of a snapshot at a given moment means
dereferencing its camera-1 entry in the current heap. -/
def snapshotCamera1 (s : StatsSnapshot) (h : CamHeap) : CamStats :=
  h s.dict.camera1Ref

/-! ## Theorems -/

/-- Claim C3: for every sequence of N ≥ 1 producer inserts into a
camera's frame queue (each insert drains already-queued items first,
then `put_nowait`s), a single consumer read returns exactly the most
recently inserted frame and leaves the queue empty; and reading an
empty queue returns `none` without blocking (`get_nowait` never
blocks). -/
theorem frame_queue_latest_wins {α : Type} (q0 : List α) (ys : List α)
    (x : α) :
    getFrameRead (List.foldl producerInsert q0 (ys ++ [x])) = (some x, []) ∧
    getFrameRead ([] : List α) = (none, []) := by
  constructor
  · have h : List.foldl producerInsert q0 (ys ++ [x]) = [x] := by
      rw [List.foldl_append]
      simp [producerInsert, drainQueue, putNowait]
    rw [h]
    rfl
  · rfl

/-- Claim C9: `estimate_volume` recomputes
`volume_estimate = 0.01 × (area_camera1 + area_camera2) / 2` from the
stored per-camera brick areas, stores it, and returns that value (the
stored camera records are untouched). -/
theorem estimate_volume_formula (s : GlobalStats) :
    (estimate_volume s).2 =
      (1 / 100) * (s.camera1.brick_area + s.camera2.brick_area) / 2 ∧
    (estimate_volume s).1.volume_estimate = (estimate_volume s).2 ∧
    (estimate_volume s).1.camera1 = s.camera1 ∧
    (estimate_volume s).1.camera2 = s.camera2 := by
  refine ⟨?_, rfl, rfl, rfl⟩
  show (s.camera1.brick_area + s.camera2.brick_area) / 2 * (1 / 100) =
    (1 / 100) * (s.camera1.brick_area + s.camera2.brick_area) / 2
  ring

/-- Claim C10: the backward-compatibility field `total_area` equals
`brick_area` after every pass of the worker loop that starts with the
fields equal — in particular after every successful per-camera stats
update, which stores the same total into both fields — and the fields
start out equal at construction. -/
theorem total_area_eq_brick_area (cfg : WorkerCfg) (W H : ℕ)
    (paused : Bool) (st : CamStats) (frozen : Option Frame)
    (queue : List Frame) (readResult : Option Frame)
    (det : Except Unit (List (List RawDet)))
    (seg : Box → Except Unit SegOutput)
    (resize : Mask → ℤ → ℤ → Mask)
    (h : st.total_area = st.brick_area) :
    (workerLoopIteration cfg W H paused st frozen queue readResult det seg
        resize).stats.total_area =
      (workerLoopIteration cfg W H paused st frozen queue readResult det seg
        resize).stats.brick_area ∧
    (∀ (s : CamStats) (t o : ℕ) (a : ℚ),
      (updateIterStats s t o a).total_area =
        (updateIterStats s t o a).brick_area) ∧
    initCamStats.total_area = initCamStats.brick_area := by
  refine ⟨?_, fun _ _ _ _ => rfl, rfl⟩
  unfold workerLoopIteration
  cases paused
  · cases readResult with
    | none => simpa using h
    | some f =>
        simp only [Bool.false_eq_true, if_false]
        unfold cameraIteration
        cases hb : processFrameBody cfg W H det seg resize with
        | ok v => simp [updateIterStats]
        | error e => simpa using h
  · cases frozen with
    | none => simpa using h
    | some f => simpa using h

/-- Witness for `total_area_eq_brick_area` at a concrete paused
iteration. -/
theorem total_area_eq_brick_area_witness :
    initCamStats.total_area = initCamStats.brick_area ∧
    ((workerLoopIteration ⟨7, 6/100⟩ 640 480 true initCamStats none []
        none (Except.error ()) (fun _ => Except.error ())
        (fun m _ _ => m)).stats.total_area =
      (workerLoopIteration ⟨7, 6/100⟩ 640 480 true initCamStats none []
        none (Except.error ()) (fun _ => Except.error ())
        (fun m _ _ => m)).stats.brick_area ∧
    (∀ (s : CamStats) (t o : ℕ) (a : ℚ),
      (updateIterStats s t o a).total_area =
        (updateIterStats s t o a).brick_area) ∧
    initCamStats.total_area = initCamStats.brick_area) :=
  ⟨rfl, total_area_eq_brick_area ⟨7, 6/100⟩ 640 480 true initCamStats none []
    none (Except.error ()) (fun _ => Except.error ()) (fun m _ _ => m) rfl⟩

/-- Claim C6 counterexample: the claim says a detection confidence
threshold outside `[0,1]` or a negative crop margin makes `start` fail;
in the code neither `__init__` nor `start_processing` validates any
configuration value, so with `det_conf = 2` and `crop_margin = -1/10`
(and external model loading / stream opening succeeding) start
succeeds, returning a running processor that stores the out-of-range
values as given. -/
theorem start_accepts_invalid_config :
    (1 : ℚ) < 2 ∧ (-(1/10) : ℚ) < 0 ∧
    start_processing_core 2 (35/100) 7 (-(1/10)) (Except.ok ())
        (Except.ok ()) =
      Except.ok
        { det_conf := 2, seg_conf := 35/100, truck_class_id := 7,
          crop_margin := -(1/10), stats := initGlobalStats,
          processing := true, processing_paused := false } := by
  refine ⟨by norm_num, by norm_num, rfl⟩

/-- Claim C6 (amended): no configuration value is validated — `start`
stores any supplied confidence thresholds and crop margin as given
(valid or not) and succeeds whenever model loading and stream opening
succeed; it fails exactly when one of those external steps fails, and
the failure is reported to the caller. -/
theorem start_stores_config_unvalidated (dc sc : ℚ) (tid : ℤ) (cm : ℚ)
    (msg : String) (os : Except String Unit) :
    start_processing_core dc sc tid cm (Except.ok ()) (Except.ok ()) =
      Except.ok
        { det_conf := dc, seg_conf := sc, truck_class_id := tid,
          crop_margin := cm, stats := initGlobalStats,
          processing := true, processing_paused := false } ∧
    start_processing_core dc sc tid cm (Except.error msg) os =
      Except.error msg ∧
    start_processing_core dc sc tid cm (Except.ok ()) (Except.error msg) =
      Except.error msg :=
  ⟨rfl, rfl, rfl⟩

/-- Claim C1 counterexample: the claim says that after an exception in
the localization call the per-camera stats for that iteration show
`trucks = 0` and `objects = 0`.  In the code the stats update sits
inside the `try` block, so an exception skips it and the stats keep the
previous iteration's values: starting from stats `trucks = 2`,
`objects = 3` and a failing `det_model.predict`, the iteration publishes
the raw frame but the stats still read `trucks = 2`, `objects = 3`. -/
theorem localize_error_stats_not_zeroed :
    (cameraIteration ⟨7, 6/100⟩ 640 480 ⟨0, 2, 3, 50, 50⟩ ⟨1, false⟩ []
        (Except.error ()) (fun _ => Except.error ()) (fun m _ _ => m)).2 =
      [⟨1, false⟩] ∧
    ¬ ((cameraIteration ⟨7, 6/100⟩ 640 480 ⟨0, 2, 3, 50, 50⟩ ⟨1, false⟩ []
        (Except.error ()) (fun _ => Except.error ()) (fun m _ _ => m)).1.trucks
          = 0 ∧
       (cameraIteration ⟨7, 6/100⟩ 640 480 ⟨0, 2, 3, 50, 50⟩ ⟨1, false⟩ []
        (Except.error ()) (fun _ => Except.error ()) (fun m _ _ => m)).1.objects
          = 0) := by
  refine ⟨rfl, ?_⟩
  intro hc
  exact absurd hc.1 (by decide)

/-- Claim C1 (amended): for every frame iteration in which the
localization call or any later processing step raises an exception, the
worker publishes the raw unannotated frame to that camera's frame
queue, the per-camera stats are left unchanged for that iteration
(they retain the previous iteration's values instead of being reset to
zero), and the loop continues to the next frame without the worker
terminating — the exception handler swallows the error and the
iteration returns normally with the read still being invoked. -/
theorem processing_error_publishes_raw (cfg : WorkerCfg) (W H : ℕ)
    (st : CamStats) (frozen : Option Frame) (queue : List Frame)
    (f : Frame)
    (det : Except Unit (List (List RawDet)))
    (seg : Box → Except Unit SegOutput)
    (resize : Mask → ℤ → ℤ → Mask) (e : Unit)
    (h : processFrameBody cfg W H det seg resize = Except.error e) :
    workerLoopIteration cfg W H false st frozen queue (some f) det seg
        resize = ⟨true, st, some f, [f]⟩ := by
  unfold workerLoopIteration cameraIteration
  rw [h]
  rfl

/-- Witness for `processing_error_publishes_raw`: a failing
`det_model.predict` on a concrete iteration. -/
theorem processing_error_publishes_raw_witness :
    processFrameBody ⟨7, 6/100⟩ 640 480 (Except.error ())
        (fun _ => Except.error ()) (fun m _ _ => m) = Except.error () ∧
    workerLoopIteration ⟨7, 6/100⟩ 640 480 false ⟨0, 2, 3, 50, 50⟩ none []
        (some ⟨1, false⟩) (Except.error ()) (fun _ => Except.error ())
        (fun m _ _ => m) =
      ⟨true, ⟨0, 2, 3, 50, 50⟩, some ⟨1, false⟩, [⟨1, false⟩]⟩ :=
  ⟨rfl, processing_error_publishes_raw ⟨7, 6/100⟩ 640 480 ⟨0, 2, 3, 50, 50⟩
    none [] ⟨1, false⟩ (Except.error ()) (fun _ => Except.error ())
    (fun m _ _ => m) () rfl⟩

/-- Claim C8: while the pipeline is paused, a worker iteration does not
invoke the capture source's `read`; when a last-good frame is retained
it is republished into the frame queue (drain, then put, so the queue
holds exactly that frame); and a non-paused iteration does invoke
`read` again. -/
theorem paused_iteration_skips_read (cfg : WorkerCfg) (W H : ℕ)
    (st : CamStats) (f : Frame) (frozen : Option Frame)
    (queue : List Frame) (readResult : Option Frame)
    (det : Except Unit (List (List RawDet)))
    (seg : Box → Except Unit SegOutput)
    (resize : Mask → ℤ → ℤ → Mask)
    (hf : frozen = some f) :
    (workerLoopIteration cfg W H true st frozen queue readResult det seg
        resize).readInvoked = false ∧
    (workerLoopIteration cfg W H true st frozen queue readResult det seg
        resize).queue = [f] ∧
    (workerLoopIteration cfg W H false st frozen queue readResult det seg
        resize).readInvoked = true := by
  subst hf
  refine ⟨rfl, rfl, ?_⟩
  unfold workerLoopIteration
  cases readResult <;> rfl

/-- Witness for `paused_iteration_skips_read` at a concrete paused
iteration holding a last-good frame. -/
theorem paused_iteration_skips_read_witness :
    (some (⟨5, true⟩ : Frame) = some ⟨5, true⟩) ∧
    ((workerLoopIteration ⟨7, 6/100⟩ 640 480 true initCamStats
        (some ⟨5, true⟩) [] none (Except.error ())
        (fun _ => Except.error ()) (fun m _ _ => m)).readInvoked = false ∧
    (workerLoopIteration ⟨7, 6/100⟩ 640 480 true initCamStats
        (some ⟨5, true⟩) [] none (Except.error ())
        (fun _ => Except.error ()) (fun m _ _ => m)).queue = [⟨5, true⟩] ∧
    (workerLoopIteration ⟨7, 6/100⟩ 640 480 false initCamStats
        (some ⟨5, true⟩) [] none (Except.error ())
        (fun _ => Except.error ()) (fun m _ _ => m)).readInvoked = true) :=
  ⟨rfl, paused_iteration_skips_read ⟨7, 6/100⟩ 640 480 initCamStats
    ⟨5, true⟩ (some ⟨5, true⟩) [] none (Except.error ())
    (fun _ => Except.error ()) (fun m _ _ => m) rfl⟩

/-- Claim C7 (code bug): `get_stats` copies the stats dict with the
shallow `dict.copy()`, so the returned snapshot shares the nested
per-camera dicts with the live stats by reference.  At the concrete
failing input — a snapshot taken while `camera1.trucks = 0`, followed
by the worker's in-place update writing `trucks = 5` — the contents of
the already-returned snapshot change from 0 to 5, contradicting the
claimed consistent-copy semantics. -/
theorem get_stats_shallow_copy_aliasing :
    (snapshotCamera1 (get_stats statsDictInit false) camHeapInit).trucks
      = 0 ∧
    (snapshotCamera1 (get_stats statsDictInit false)
        (heapWorkerUpdate camHeapInit statsDictInit CamKey.camera1 5 3 10)
      ).trucks = 5 ∧
    snapshotCamera1 (get_stats statsDictInit false) camHeapInit ≠
      snapshotCamera1 (get_stats statsDictInit false)
        (heapWorkerUpdate camHeapInit statsDictInit CamKey.camera1 5 3 10)
    := by
  refine ⟨rfl, rfl, ?_⟩
  intro hc
  exact absurd (congrArg CamStats.trucks hc) (by decide)

/-- Claim C4 counterexample: the claim says the crop window expands
each side by `round(extent × margin)`, but the code uses Python `int()`
truncation (`dx = int(bw * self.crop_margin)`).  For the box
`(100,100,115,115)` with margin `0.1` in a `640×480` frame the extent
is 15, so `15 × 0.1 = 1.5`: the code truncates to 1 and yields
`(99,99,116,116)`, while the claimed rounding gives 2 and would yield
`(98,98,117,117)`. -/
theorem crop_window_not_rounded :
    cropWindow ⟨100, 100, 115, 115⟩ (1/10) 640 480 = ⟨99, 99, 116, 116⟩ ∧
    spec_expand_and_clamp ⟨100, 100, 115, 115⟩ (1/10) 640 480 =
      ⟨98, 98, 117, 117⟩ ∧
    cropWindow ⟨100, 100, 115, 115⟩ (1/10) 640 480 ≠
      spec_expand_and_clamp ⟨100, 100, 115, 115⟩ (1/10) 640 480 := by
  have h1 : cropWindow ⟨100, 100, 115, 115⟩ (1/10) 640 480 =
      ⟨99, 99, 116, 116⟩ := by
    norm_num [cropWindow, pyInt, clamp, Box.mk.injEq]
  have h2 : spec_expand_and_clamp ⟨100, 100, 115, 115⟩ (1/10) 640 480 =
      ⟨98, 98, 117, 117⟩ := by
    norm_num [spec_expand_and_clamp, pyRound, round_eq, clamp, Box.mk.injEq]
  refine ⟨h1, h2, ?_⟩
  rw [h1, h2]
  intro hc
  exact absurd hc (by decide)

/-- Claim C4 (amended): for every detected box with non-negative extent
and non-negative margin fraction `m`, the crop window is obtained by
expanding each side of the box by the truncation (floor)
`⌊extent × m⌋` per axis and then clamping each coordinate to
`[0,W-1] × [0,H-1]` (Python `int()` truncates rather than rounds); the
particular box `(100,100,300,300)` in a `640×480` frame with margin
`0.1` still yields the window `(80,80,320,320)` since `200 × 0.1` is
exact. -/
theorem crop_window_trunc_formula :
    (∀ (b : Box) (m : ℚ) (W H : ℤ), 0 ≤ m → b.x1 ≤ b.x2 → b.y1 ≤ b.y2 →
        cropWindow b m W H = expand_and_clamp_trunc b m W H) ∧
    cropWindow ⟨100, 100, 300, 300⟩ (1/10) 640 480 = ⟨80, 80, 320, 320⟩
    := by
  constructor
  · intro b m W H hm hx hy
    have hx' : (0 : ℚ) ≤ ((b.x2 - b.x1 : ℤ) : ℚ) * m := by
      apply mul_nonneg _ hm
      exact_mod_cast sub_nonneg.2 hx
    have hy' : (0 : ℚ) ≤ ((b.y2 - b.y1 : ℤ) : ℚ) * m := by
      apply mul_nonneg _ hm
      exact_mod_cast sub_nonneg.2 hy
    simp only [cropWindow, expand_and_clamp_trunc, pyInt]
    rw [if_pos hx', if_pos hy']
  · norm_num [cropWindow, pyInt, clamp, Box.mk.injEq]

/-- Witness for `crop_window_trunc_formula` at the spec's Scenario 1
box. -/
theorem crop_window_trunc_formula_witness :
    (0 : ℚ) ≤ 1/10 ∧ (100 : ℤ) ≤ 300 ∧ (100 : ℤ) ≤ 300 ∧
    cropWindow ⟨100, 100, 300, 300⟩ (1/10) 640 480 =
      expand_and_clamp_trunc ⟨100, 100, 300, 300⟩ (1/10) 640 480 :=
  ⟨by norm_num, by decide, by decide,
    crop_window_trunc_formula.1 ⟨100, 100, 300, 300⟩ (1/10) 640 480
      (by norm_num) (by decide) (by decide)⟩

/-- Helper: `clamp` lands in `[lo, hi]` whenever `lo ≤ hi`. -/
theorem clamp_mem_Icc (v lo hi : ℤ) (h : lo ≤ hi) :
    lo ≤ clamp v lo hi ∧ clamp v lo hi ≤ hi := by
  unfold clamp
  omega

/-- Witness for `clamp_mem_Icc`. -/
theorem clamp_mem_Icc_witness :
    (0 : ℤ) ≤ 639 ∧ (0 : ℤ) ≤ clamp 700 0 639 ∧ clamp 700 0 639 ≤ 639 :=
  ⟨by decide, clamp_mem_Icc 700 0 639 (by decide)⟩

/-- Claim C5: every box kept by `_extract_truck_boxes` comes from a
detection whose class id equals the configured target id, its clamped
coordinates satisfy `0 ≤ x1 < x2 ≤ W-1` and `0 ≤ y1 < y2 ≤ H-1`, and
(equivalently) every detection whose clamped box has zero or negative
extent is discarded, since only positive-extent boxes appear in the
output. -/
theorem extract_truck_boxes_invariant (tid : ℤ)
    (detResults : List (List RawDet)) (W H : ℤ)
    (hW : 1 ≤ W) (hH : 1 ≤ H) :
    ∀ b ∈ extractTruckBoxes tid detResults W H,
      (∃ boxes ∈ detResults, ∃ d ∈ boxes, d.cls = tid ∧
          b = ⟨clamp d.x1 0 (W - 1), clamp d.y1 0 (H - 1),
               clamp d.x2 0 (W - 1), clamp d.y2 0 (H - 1)⟩) ∧
      0 ≤ b.x1 ∧ b.x1 < b.x2 ∧ b.x2 ≤ W - 1 ∧
      0 ≤ b.y1 ∧ b.y1 < b.y2 ∧ b.y2 ≤ H - 1 := by
  intro b hb
  simp only [extractTruckBoxes, List.mem_flatMap, List.mem_filterMap]
    at hb
  obtain ⟨boxes, hboxes, d, hd, hsome⟩ := hb
  by_cases hcls : d.cls ≠ tid
  · rw [if_pos hcls] at hsome
    cases hsome
  · rw [if_neg hcls] at hsome
    push_neg at hcls
    by_cases hpos : clamp d.x2 0 (W - 1) > clamp d.x1 0 (W - 1) ∧
        clamp d.y2 0 (H - 1) > clamp d.y1 0 (H - 1)
    · rw [if_pos hpos] at hsome
      obtain rfl := Option.some.inj hsome
      have hx1 := clamp_mem_Icc d.x1 0 (W - 1) (by omega)
      have hx2 := clamp_mem_Icc d.x2 0 (W - 1) (by omega)
      have hy1 := clamp_mem_Icc d.y1 0 (H - 1) (by omega)
      have hy2 := clamp_mem_Icc d.y2 0 (H - 1) (by omega)
      exact ⟨⟨boxes, hboxes, d, hd, hcls, rfl⟩,
        hx1.1, hpos.1, hx2.2, hy1.1, hpos.2, hy2.2⟩
    · rw [if_neg hpos] at hsome
      cases hsome

/-- Witness for `extract_truck_boxes_invariant`: a detection list with
a target-class box sticking out of the frame (clamped and kept), an
off-target-class box (dropped) and a degenerate box (dropped). -/
theorem extract_truck_boxes_invariant_witness :
    (1 : ℤ) ≤ 640 ∧ (1 : ℤ) ≤ 480 ∧
    (⟨0, 10, 639, 400⟩ : Box) ∈
      extractTruckBoxes 7 [[⟨7, -5, 10, 700, 400⟩, ⟨2, 0, 0, 100, 100⟩,
        ⟨7, 50, 50, 50, 80⟩]] 640 480 ∧
    ((∃ boxes ∈ [[(⟨7, -5, 10, 700, 400⟩ : RawDet), ⟨2, 0, 0, 100, 100⟩,
          ⟨7, 50, 50, 50, 80⟩]], ∃ d ∈ boxes, d.cls = 7 ∧
        (⟨0, 10, 639, 400⟩ : Box) =
          ⟨clamp d.x1 0 639, clamp d.y1 0 479,
           clamp d.x2 0 639, clamp d.y2 0 479⟩) ∧
      (0 : ℤ) ≤ 0 ∧ (0 : ℤ) < 639 ∧ (639 : ℤ) ≤ 639 ∧
      (0 : ℤ) ≤ 10 ∧ (10 : ℤ) < 400 ∧ (400 : ℤ) ≤ 479) :=
  ⟨by decide, by decide, by decide,
    extract_truck_boxes_invariant 7
      [[⟨7, -5, 10, 700, 400⟩, ⟨2, 0, 0, 100, 100⟩, ⟨7, 50, 50, 50, 80⟩]]
      640 480 (by decide) (by decide) ⟨0, 10, 639, 400⟩ (by decide)⟩

/-- Claim C2: for every crop window whose coordinates are clamped into
`[0,W-1] × [0,H-1]` and every mask of any native size (and any
behaviour of the external resize), the remapping step writes pixels
only at canvas coordinates inside `[0,W) × [0,H)` — a nonzero pixel of
the full-frame mask lies inside both the canvas and the crop window —
and every coordinate outside the crop window remains zero. -/
theorem remap_mask_stays_in_canvas (W H cx1 cy1 cx2 cy2 : ℤ)
    (hx1l : 0 ≤ cx1) (hx1u : cx1 ≤ W - 1)
    (hy1l : 0 ≤ cy1) (hy1u : cy1 ≤ H - 1)
    (hx2l : 0 ≤ cx2) (hx2u : cx2 ≤ W - 1)
    (hy2l : 0 ≤ cy2) (hy2u : cy2 ≤ H - 1) :
    ∀ (resize : Mask → ℤ → ℤ → Mask) (m : Mask) (mh mw y x : ℤ),
      (remapMask resize m mh mw cx1 cy1 cx2 cy2 y x ≠ 0 →
        0 ≤ x ∧ x < W ∧ 0 ≤ y ∧ y < H ∧
        cx1 ≤ x ∧ x < cx2 ∧ cy1 ≤ y ∧ y < cy2) ∧
      (¬ (cy1 ≤ y ∧ y < cy2 ∧ cx1 ≤ x ∧ x < cx2) →
        remapMask resize m mh mw cx1 cy1 cx2 cy2 y x = 0) := by
  intro resize m mh mw y x
  have hzero : ∀ hc : ¬ (cy1 ≤ y ∧ y < cy2 ∧ cx1 ≤ x ∧ x < cx2),
      remapMask resize m mh mw cx1 cy1 cx2 cy2 y x = 0 := by
    intro hc
    simp only [remapMask, sliceAssign, zerosCanvas]
    rw [if_neg hc]
  constructor
  · intro hne
    by_cases hc : cy1 ≤ y ∧ y < cy2 ∧ cx1 ≤ x ∧ x < cx2
    · obtain ⟨h1, h2, h3, h4⟩ := hc
      exact ⟨by omega, by omega, by omega, by omega, h3, h4, h1, h2⟩
    · exact absurd (hzero hc) hne
  · exact hzero

/-- Witness for `remap_mask_stays_in_canvas`: the Scenario 1 crop
window `(80,80,320,320)` in a `640×480` frame, an all-ones mask of
native size `5×5` (so the resize path is taken), evaluated at the
out-of-window pixel `(0,0)`. -/
theorem remap_mask_stays_in_canvas_witness :
    ((0 : ℤ) ≤ 80 ∧ (80 : ℤ) ≤ 640 - 1 ∧ (0 : ℤ) ≤ 80 ∧
     (80 : ℤ) ≤ 480 - 1 ∧ (0 : ℤ) ≤ 320 ∧ (320 : ℤ) ≤ 640 - 1 ∧
     (0 : ℤ) ≤ 320 ∧ (320 : ℤ) ≤ 480 - 1) ∧
    ((remapMask (fun mk _ _ => mk) (fun _ _ => 1) 5 5 80 80 320 320 0 0 ≠ 0 →
        (0 : ℤ) ≤ 0 ∧ (0 : ℤ) < 640 ∧ (0 : ℤ) ≤ 0 ∧ (0 : ℤ) < 480 ∧
        (80 : ℤ) ≤ 0 ∧ (0 : ℤ) < 320 ∧ (80 : ℤ) ≤ 0 ∧ (0 : ℤ) < 320) ∧
     (¬ ((80 : ℤ) ≤ 0 ∧ (0 : ℤ) < 320 ∧ (80 : ℤ) ≤ 0 ∧ (0 : ℤ) < 320) →
        remapMask (fun mk _ _ => mk) (fun _ _ => 1) 5 5 80 80 320 320 0 0
          = 0)) :=
  ⟨⟨by decide, by decide, by decide, by decide, by decide, by decide,
    by decide, by decide⟩,
   remap_mask_stays_in_canvas 640 480 80 80 320 320 (by decide) (by decide)
     (by decide) (by decide) (by decide) (by decide) (by decide) (by decide)
     (fun mk _ _ => mk) (fun _ _ => 1) 5 5 0 0⟩

end TrackLoad
